import Mathlib

/-!
# Valuation & Projection Engine of the ITLG asset calculator

Shallow embedding of the engine code shared by `src/pages/index.tsx` and the
unnamed near-duplicate source file (`src/unnamed/part_000`): input parsing
(`parseNumber`), validation and computation (`compute`), the UI state update
around a computation, and the exchange-rate fetch with fallback
(`fetchExchangeRate`, present only in the unnamed file).

JavaScript numbers are modelled by `JSNum`: NaN, the two infinities, or a
finite value represented exactly as a rational.  The embedding abstracts IEEE
double rounding (finite arithmetic is exact) and the sign of zero; NaN
propagation and the NaN-rejecting comparisons, which the engine's control flow
depends on, are modelled faithfully.
-/

/-- Model of a JavaScript number: NaN, ±Infinity, or a finite value
(represented exactly as a rational, abstracting IEEE rounding). -/
inductive JSNum where
  | nan : JSNum
  | posInf : JSNum
  | negInf : JSNum
  | fin : ℚ → JSNum
deriving DecidableEq

namespace JSNum

/-- Model of `Number.isFinite`. -/
def isFiniteB : JSNum → Bool
  | fin _ => true
  | _ => false

/-- Model of `Number.isNaN`. -/
def isNaNB : JSNum → Bool
  | nan => true
  | _ => false

/-- Model of the JavaScript `<` comparison (false whenever an operand is NaN). -/
def lt : JSNum → JSNum → Bool
  | nan, _ => false
  | _, nan => false
  | negInf, negInf => false
  | negInf, _ => true
  | _, negInf => false
  | posInf, _ => false
  | fin _, posInf => true
  | fin a, fin b => decide (a < b)

/-- Model of the JavaScript `<=` comparison (false whenever an operand is NaN). -/
def le : JSNum → JSNum → Bool
  | nan, _ => false
  | _, nan => false
  | negInf, _ => true
  | fin _, negInf => false
  | posInf, negInf => false
  | _, posInf => true
  | posInf, fin _ => false
  | fin a, fin b => decide (a ≤ b)

/-- Model of JavaScript addition. -/
def add : JSNum → JSNum → JSNum
  | nan, _ => nan
  | _, nan => nan
  | posInf, negInf => nan
  | negInf, posInf => nan
  | posInf, _ => posInf
  | _, posInf => posInf
  | negInf, _ => negInf
  | _, negInf => negInf
  | fin a, fin b => fin (a + b)

/-- Model of JavaScript negation. -/
def neg : JSNum → JSNum
  | nan => nan
  | posInf => negInf
  | negInf => posInf
  | fin a => fin (-a)

/-- Model of JavaScript subtraction. -/
def sub (a b : JSNum) : JSNum := a.add b.neg

/-- Model of JavaScript multiplication. -/
def mul : JSNum → JSNum → JSNum
  | nan, _ => nan
  | _, nan => nan
  | fin a, fin b => fin (a * b)
  | posInf, posInf => posInf
  | negInf, negInf => posInf
  | posInf, negInf => negInf
  | negInf, posInf => negInf
  | posInf, fin b => if b = 0 then nan else if 0 < b then posInf else negInf
  | fin a, posInf => if a = 0 then nan else if 0 < a then posInf else negInf
  | negInf, fin b => if b = 0 then nan else if 0 < b then negInf else posInf
  | fin a, negInf => if a = 0 then nan else if 0 < a then negInf else posInf

/-- Model of JavaScript division (sign of zero not modelled: a finite
numerator over zero takes the numerator's sign). -/
def div : JSNum → JSNum → JSNum
  | nan, _ => nan
  | _, nan => nan
  | fin a, fin b =>
      if b = 0 then (if a = 0 then nan else if 0 < a then posInf else negInf)
      else fin (a / b)
  | posInf, fin b => if 0 ≤ b then posInf else negInf
  | negInf, fin b => if 0 ≤ b then negInf else posInf
  | fin _, posInf => fin 0
  | fin _, negInf => fin 0
  | posInf, _ => nan
  | negInf, _ => nan

/-- Model of `Math.ceil`. -/
def ceil : JSNum → JSNum
  | nan => nan
  | posInf => posInf
  | negInf => negInf
  | fin a => fin (⌈a⌉ : ℤ)

end JSNum

/-- Characters removed by the JavaScript `String.prototype.trim` (the common
ASCII whitespace characters and the no-break space). -/
def isJsSpace (c : Char) : Bool :=
  c = ' ' || c = '\t' || c = '\n' || c = '\r' || c.toNat = 11 || c.toNat = 12 || c.toNat = 160

/-- Model of `String.prototype.trim`. -/
def jsTrim (s : String) : String :=
  ⟨(((s.data.dropWhile isJsSpace).reverse.dropWhile isJsSpace).reverse)⟩

/-- Model of `v.replace(/,/g, "")`: remove every comma. -/
def removeCommas (s : String) : String :=
  ⟨s.data.filter (fun c => c != ',')⟩

/-- Decimal digit test. -/
def isDigitChar (c : Char) : Bool := '0' ≤ c && c ≤ '9'

/-- Numeric value of a decimal digit character. -/
def digitVal (c : Char) : ℕ := c.toNat - '0'.toNat

/-- Value of a list of decimal digit characters read in base 10. -/
def natOfDigits (l : List Char) : ℕ :=
  l.foldl (fun a c => 10 * a + digitVal c) 0

/-- `10 ^ n` as a rational, computed in ℕ. -/
def pow10 (n : ℕ) : ℚ := ((10 ^ n : ℕ) : ℚ)

/-- Scale a mantissa by a signed power of ten: `m * 10 ^ e`. -/
def scaleByExp (m : ℚ) (e : ℤ) : ℚ :=
  if 0 ≤ e then m * pow10 e.toNat else m / pow10 (-e).toNat

/-- Parse the part after `e`/`E` of a decimal literal: an optional sign
followed by at least one digit, consuming the whole list. -/
def parseExpTail (l : List Char) : Option ℤ :=
  match l with
  | '+' :: d => if d ≠ [] ∧ d.all isDigitChar then some (natOfDigits d : ℤ) else none
  | '-' :: d => if d ≠ [] ∧ d.all isDigitChar then some (-(natOfDigits d : ℤ)) else none
  | d => if d ≠ [] ∧ d.all isDigitChar then some (natOfDigits d : ℤ) else none

/-- Given the mantissa value, parse the optional exponent part and require
the input to be fully consumed. -/
def parseAfterDigits (m : ℚ) (l : List Char) : Option ℚ :=
  match l with
  | [] => some m
  | 'e' :: r => (parseExpTail r).map (fun e => scaleByExp m e)
  | 'E' :: r => (parseExpTail r).map (fun e => scaleByExp m e)
  | _ => none

/-- Parse an unsigned decimal literal `digits [. digits] [exp]` (at least one
digit before or after the dot), consuming the whole list. -/
def parseUnsigned (l : List Char) : Option ℚ :=
  let ip := l.takeWhile isDigitChar
  let r1 := l.dropWhile isDigitChar
  match r1 with
  | '.' :: r2 =>
      let fp := r2.takeWhile isDigitChar
      let r3 := r2.dropWhile isDigitChar
      if ip.isEmpty && fp.isEmpty then none
      else parseAfterDigits ((natOfDigits ip : ℚ) + (natOfDigits fp : ℚ) / pow10 fp.length) r3
  | _ => if ip.isEmpty then none else parseAfterDigits (natOfDigits ip : ℚ) r1

/-- Signed body of a string numeric literal: optional sign, then `Infinity`
or an unsigned decimal literal. -/
def jsNumberSigned (l : List Char) (isNeg : Bool) : JSNum :=
  if l = "Infinity".data then (if isNeg then JSNum.negInf else JSNum.posInf)
  else
    match parseUnsigned l with
    | some q => JSNum.fin (if isNeg then -q else q)
    | none => JSNum.nan

/-- Model of the JavaScript `Number(string)` conversion, covering the decimal
and `Infinity` productions of the string numeric grammar (the hex, octal and
binary literal productions are not modelled; the engine is only ever fed
decimal input). The empty (or whitespace-only) string converts to `0`. -/
def jsNumber (s : String) : JSNum :=
  let t := jsTrim s
  if t = "" then JSNum.fin 0
  else
    match t.data with
    | '+' :: r => jsNumberSigned r false
    | '-' :: r => jsNumberSigned r true
    | r => jsNumberSigned r false

/-- Proleptic-Gregorian leap-year test. -/
def isLeap (y : ℤ) : Bool := (y % 4 = 0 && y % 100 ≠ 0) || y % 400 = 0

/-- Number of days in a month. -/
def daysInMonth (y : ℤ) (m : ℕ) : ℕ :=
  if m = 2 then (if isLeap y then 29 else 28)
  else if m = 4 ∨ m = 6 ∨ m = 9 ∨ m = 11 then 30
  else 31

/-- Days from the Unix epoch (1970-01-01) to the civil date `y-m-d`,
proleptic Gregorian. -/
def daysFromCivil (y : ℤ) (m d : ℕ) : ℤ :=
  let yy : ℤ := if m ≤ 2 then y - 1 else y
  let mp : ℕ := (m + 9) % 12
  365 * yy + Int.fdiv yy 4 - Int.fdiv yy 100 + Int.fdiv yy 400
    + ((153 * mp + 2) / 5 + (d - 1) : ℕ) - 719468

/-- The date environment a computation runs in: today's civil date and the
local timezone offset (milliseconds added to a UTC day timestamp to obtain
the local-midnight timestamp). -/
structure DateEnv where
  todayYear : ℤ
  todayMonth : ℕ
  todayDay : ℕ
  tzOffsetMs : ℤ
deriving DecidableEq

/-- Timestamp (ms since epoch) of local midnight of the civil date `y-m-d`. -/
def localMidnightMs (env : DateEnv) (y : ℤ) (m d : ℕ) : ℤ :=
  daysFromCivil y m d * 86400000 + env.tzOffsetMs

/-- Model of `new Date().setHours(0,0,0,0)`: the timestamp of today's local
midnight. -/
def DateEnv.todayMidnightMs (env : DateEnv) : ℤ :=
  localMidnightMs env env.todayYear env.todayMonth env.todayDay

/-- Parse a strict `YYYY-MM-DD` ISO calendar date, validating the month and
the day-of-month range. -/
def parseISODate (s : String) : Option (ℤ × ℕ × ℕ) :=
  match s.data with
  | [y1, y2, y3, y4, '-', m1, m2, '-', d1, d2] =>
      if [y1, y2, y3, y4, m1, m2, d1, d2].all isDigitChar then
        let y : ℤ := (natOfDigits [y1, y2, y3, y4] : ℤ)
        let m := natOfDigits [m1, m2]
        let d := natOfDigits [d1, d2]
        if 1 ≤ m ∧ m ≤ 12 ∧ 1 ≤ d ∧ d ≤ daysInMonth y m then some (y, m, d) else none
      else none
  | _ => none

/-- Model of `new Date(endDate + "T00:00:00").getTime()`: the appended
`T00:00:00` makes a parseable calendar date denote local midnight of that
day; an unparseable string yields an Invalid Date, whose time value is NaN. -/
def newDateT00 (env : DateEnv) (endDate : String) : JSNum :=
  match parseISODate endDate with
  | some (y, m, d) => JSNum.fin ((localMidnightMs env y m d : ℤ) : ℚ)
  | none => JSNum.nan

/-- The four validation failures of `compute`, in source order. -/
inductive ComputeError where
  | InvalidPrice : ComputeError
  | InvalidHolding : ComputeError
  | InvalidAccrual : ComputeError
  | InvalidRate : ComputeError
deriving DecidableEq

/-- The `Result` record type shared by both source files: present value in
USDT and IDR, plus the optional projection trio. -/
structure Result where
  totalUSDT : JSNum
  totalIDR : JSNum
  projectedUSDT : Option JSNum := none
  projectedIDR : Option JSNum := none
  daysProjected : Option JSNum := none
deriving DecidableEq

namespace Page

/-- `parseNumber` of `src/pages/index.tsx`: empty string is `0`; otherwise
remove commas, trim, convert with `Number`, and replace a non-finite
conversion by the NaN sentinel. -/
def parseNumber (v : String) : JSNum :=
  if v = "" then JSNum.fin 0
  else
    let cleaned := jsTrim (removeCommas v)
    let n := jsNumber cleaned
    if n.isFiniteB then n else JSNum.nan

/-- `compute` of `src/pages/index.tsx` (engine part: the artificial delay and
the state writes around it are modelled separately). -/
def compute (env : DateEnv) (pricePerCoin currentCoins dailyCoins usdToIdr endDate : String) :
    Except ComputeError Result :=
  let price := parseNumber pricePerCoin
  let coins := parseNumber currentCoins
  let daily := parseNumber dailyCoins
  let rate := parseNumber usdToIdr
  if price.isNaNB || price.lt (JSNum.fin 0) then Except.error ComputeError.InvalidPrice
  else if coins.isNaNB || coins.lt (JSNum.fin 0) then Except.error ComputeError.InvalidHolding
  else if daily.isNaNB || daily.lt (JSNum.fin 0) then Except.error ComputeError.InvalidAccrual
  else if rate.isNaNB || rate.le (JSNum.fin 0) then Except.error ComputeError.InvalidRate
  else
    let totalUSDT := price.mul coins
    let totalIDR := totalUSDT.mul rate
    if (JSNum.fin 0).lt daily && endDate != "" then
      let endTime := newDateT00 env endDate
      let msPerDay : JSNum := JSNum.fin 86400000
      let diff := ((endTime.sub (JSNum.fin (env.todayMidnightMs : ℚ))).div msPerDay).ceil
      let daysProjected := if (JSNum.fin 0).lt diff then diff else JSNum.fin 0
      let addedCoins := daily.mul daysProjected
      let projectedCoinsTotal := coins.add addedCoins
      let projectedUSDT := projectedCoinsTotal.mul price
      let projectedIDR := projectedUSDT.mul rate
      Except.ok { totalUSDT := totalUSDT, totalIDR := totalIDR,
                  projectedUSDT := some projectedUSDT, projectedIDR := some projectedIDR,
                  daysProjected := some daysProjected }
    else
      Except.ok { totalUSDT := totalUSDT, totalIDR := totalIDR }

end Page

namespace Part000

/-- `parseNumber` of the unnamed source file (`src/unnamed/part_000`). -/
def parseNumber (v : String) : JSNum :=
  if v = "" then JSNum.fin 0
  else
    let cleaned := jsTrim (removeCommas v)
    let n := jsNumber cleaned
    if n.isFiniteB then n else JSNum.nan

/-- `compute` of the unnamed source file (engine part; the adaptive delay and
the memoised `currentValues` are presentation plumbing around the same
parse-validate-compute body). -/
def compute (env : DateEnv) (pricePerCoin currentCoins dailyCoins usdToIdr endDate : String) :
    Except ComputeError Result :=
  let price := parseNumber pricePerCoin
  let coins := parseNumber currentCoins
  let daily := parseNumber dailyCoins
  let rate := parseNumber usdToIdr
  if price.isNaNB || price.lt (JSNum.fin 0) then Except.error ComputeError.InvalidPrice
  else if coins.isNaNB || coins.lt (JSNum.fin 0) then Except.error ComputeError.InvalidHolding
  else if daily.isNaNB || daily.lt (JSNum.fin 0) then Except.error ComputeError.InvalidAccrual
  else if rate.isNaNB || rate.le (JSNum.fin 0) then Except.error ComputeError.InvalidRate
  else
    let totalUSDT := price.mul coins
    let totalIDR := totalUSDT.mul rate
    if (JSNum.fin 0).lt daily && endDate != "" then
      let endTime := newDateT00 env endDate
      let msPerDay : JSNum := JSNum.fin 86400000
      let diff := ((endTime.sub (JSNum.fin (env.todayMidnightMs : ℚ))).div msPerDay).ceil
      let daysProjected := if (JSNum.fin 0).lt diff then diff else JSNum.fin 0
      let addedCoins := daily.mul daysProjected
      let projectedCoinsTotal := coins.add addedCoins
      let projectedUSDT := projectedCoinsTotal.mul price
      let projectedIDR := projectedUSDT.mul rate
      Except.ok { totalUSDT := totalUSDT, totalIDR := totalIDR,
                  projectedUSDT := some projectedUSDT, projectedIDR := some projectedIDR,
                  daysProjected := some daysProjected }
    else
      Except.ok { totalUSDT := totalUSDT, totalIDR := totalIDR }

/-- Outcome of the network request issued by `fetchExchangeRate`: a thrown
network/JSON error, or a decoded payload whose optional `rates` member maps
currency codes to numbers. -/
inductive RateResponse where
  | netError : RateResponse
  | json : Option (List (String × ℚ)) → RateResponse

/-- The component state touched by `fetchExchangeRate`. -/
structure RateState where
  usdToIdr : String
  error : String
  isLoadingRate : Bool
deriving DecidableEq

/-- Model of JavaScript `Number.prototype.toString` for the values the rate
API returns (exact for integral values, which is what the API serves). -/
def rateToString (q : ℚ) : String :=
  if q.den = 1 then toString q.num else toString q

/-- `fetchExchangeRate` of the unnamed source file, as a state transformer
over the response: adopt `data.rates.IDR` when present and truthy, otherwise
fall back to the fixed rate `15000` with an advisory message; a thrown
error lands in the same fallback; the loading flag is cleared in `finally`. -/
def fetchExchangeRate (resp : RateResponse) (st : RateState) : RateState :=
  match resp with
  | RateResponse.netError =>
      { usdToIdr := "15000", error := "Gagal memuat kurs USD→IDR. Gunakan nilai default.",
        isLoadingRate := false }
  | RateResponse.json none =>
      { usdToIdr := "15000", error := "Gagal memuat kurs USD→IDR. Gunakan nilai default.",
        isLoadingRate := false }
  | RateResponse.json (some rates) =>
      match List.lookup "IDR" rates with
      | some v =>
          if v ≠ 0 then
            { usdToIdr := rateToString v, error := st.error, isLoadingRate := false }
          else
            { usdToIdr := "15000", error := "Gagal memuat kurs USD→IDR. Gunakan nilai default.",
              isLoadingRate := false }
      | none =>
          { usdToIdr := "15000", error := "Gagal memuat kurs USD→IDR. Gunakan nilai default.",
            isLoadingRate := false }

end Part000

/-- The error message each validation failure sets (identical strings in both
source files). -/
def errorMessage : ComputeError → String
  | ComputeError.InvalidPrice => "Masukkan harga per koin (USDT) yang valid."
  | ComputeError.InvalidHolding => "Masukkan jumlah koin yang valid."
  | ComputeError.InvalidAccrual => "Masukkan jumlah koin harian yang valid (0 jika tidak ingin proyeksi)."
  | ComputeError.InvalidRate => "Masukkan kurs USD→IDR yang valid (misal 15000)."

/-- The component state touched by a `compute` call: the stored last
successful result and the error message. -/
structure UIState where
  result : Option Result
  error : String
deriving DecidableEq

/-- One user-triggered `compute` action as a state transformer: `setError("")`
first; a validation failure then sets the error message and returns without
touching `result`; success stores the new result. -/
def computeStep (st : UIState) (env : DateEnv) (p c d r date : String) : UIState :=
  match Page.compute env p c d r date with
  | Except.error e => { result := st.result, error := errorMessage e }
  | Except.ok res => { result := some res, error := "" }

/-- The spec's "finite number ≥ 0". -/
def validNonneg (n : JSNum) : Prop := ∃ q : ℚ, n = JSNum.fin q ∧ 0 ≤ q

/-- The spec's "finite number > 0". -/
def validPos (n : JSNum) : Prop := ∃ q : ℚ, n = JSNum.fin q ∧ 0 < q

/-! ## Basic facts about the embedded engine -/

/-- Let-free unfolding of `parseNumber`. -/
lemma parseNumber_eq (v : String) :
    Page.parseNumber v =
      if v = "" then JSNum.fin 0
      else if (jsNumber (jsTrim (removeCommas v))).isFiniteB then
        jsNumber (jsTrim (removeCommas v))
      else JSNum.nan := rfl

/-- Let-free unfolding of `compute`. -/
lemma compute_eq (env : DateEnv) (p c d r date : String) :
    Page.compute env p c d r date =
      if (Page.parseNumber p).isNaNB || (Page.parseNumber p).lt (JSNum.fin 0) then
        Except.error ComputeError.InvalidPrice
      else if (Page.parseNumber c).isNaNB || (Page.parseNumber c).lt (JSNum.fin 0) then
        Except.error ComputeError.InvalidHolding
      else if (Page.parseNumber d).isNaNB || (Page.parseNumber d).lt (JSNum.fin 0) then
        Except.error ComputeError.InvalidAccrual
      else if (Page.parseNumber r).isNaNB || (Page.parseNumber r).le (JSNum.fin 0) then
        Except.error ComputeError.InvalidRate
      else if (JSNum.fin 0).lt (Page.parseNumber d) && date != "" then
        Except.ok
          { totalUSDT := (Page.parseNumber p).mul (Page.parseNumber c),
            totalIDR := ((Page.parseNumber p).mul (Page.parseNumber c)).mul (Page.parseNumber r),
            projectedUSDT := some (((Page.parseNumber c).add ((Page.parseNumber d).mul
              (if (JSNum.fin 0).lt ((((newDateT00 env date).sub
                    (JSNum.fin (env.todayMidnightMs : ℚ))).div (JSNum.fin 86400000)).ceil) then
                (((newDateT00 env date).sub
                  (JSNum.fin (env.todayMidnightMs : ℚ))).div (JSNum.fin 86400000)).ceil
              else JSNum.fin 0))).mul (Page.parseNumber p)),
            projectedIDR := some ((((Page.parseNumber c).add ((Page.parseNumber d).mul
              (if (JSNum.fin 0).lt ((((newDateT00 env date).sub
                    (JSNum.fin (env.todayMidnightMs : ℚ))).div (JSNum.fin 86400000)).ceil) then
                (((newDateT00 env date).sub
                  (JSNum.fin (env.todayMidnightMs : ℚ))).div (JSNum.fin 86400000)).ceil
              else JSNum.fin 0))).mul (Page.parseNumber p)).mul (Page.parseNumber r)),
            daysProjected := some
              (if (JSNum.fin 0).lt ((((newDateT00 env date).sub
                    (JSNum.fin (env.todayMidnightMs : ℚ))).div (JSNum.fin 86400000)).ceil) then
                (((newDateT00 env date).sub
                  (JSNum.fin (env.todayMidnightMs : ℚ))).div (JSNum.fin 86400000)).ceil
              else JSNum.fin 0) }
      else
        Except.ok
          { totalUSDT := (Page.parseNumber p).mul (Page.parseNumber c),
            totalIDR := ((Page.parseNumber p).mul (Page.parseNumber c)).mul (Page.parseNumber r) } := rfl

/-- `parseNumber` never returns an infinity: its output is the NaN sentinel
or a finite value. -/
lemma parseNumber_nan_or_fin (v : String) :
    Page.parseNumber v = JSNum.nan ∨ ∃ q : ℚ, Page.parseNumber v = JSNum.fin q := by
  rw [parseNumber_eq]
  by_cases hv : v = ""
  · rw [if_pos hv]; exact Or.inr ⟨0, rfl⟩
  · rw [if_neg hv]
    cases h : jsNumber (jsTrim (removeCommas v)) <;> simp [JSNum.isFiniteB]

/-- The `Number.isNaN(x) || x < 0` test of `compute` fails exactly on the
parsed values the spec calls finite and non-negative. -/
lemma check_nonneg_iff (v : String) :
    (((Page.parseNumber v).isNaNB || (Page.parseNumber v).lt (JSNum.fin 0)) = false) ↔
      validNonneg (Page.parseNumber v) := by
  rcases parseNumber_nan_or_fin v with h | ⟨q, h⟩ <;> rw [h]
  · simp [JSNum.isNaNB, validNonneg]
  · simp [JSNum.isNaNB, JSNum.lt, validNonneg, not_lt]

/-- The `Number.isNaN(x) || x <= 0` test of `compute` fails exactly on the
parsed values the spec calls finite and positive. -/
lemma check_pos_iff (v : String) :
    (((Page.parseNumber v).isNaNB || (Page.parseNumber v).le (JSNum.fin 0)) = false) ↔
      validPos (Page.parseNumber v) := by
  rcases parseNumber_nan_or_fin v with h | ⟨q, h⟩ <;> rw [h]
  · simp [JSNum.isNaNB, validPos]
  · simp [JSNum.isNaNB, JSNum.le, validPos, not_le]

/-- A failed non-negativity check, as the Bool the code branches on. -/
lemma check_nonneg_true (v : String) :
    (((Page.parseNumber v).isNaNB || (Page.parseNumber v).lt (JSNum.fin 0)) = true) ↔
      ¬ validNonneg (Page.parseNumber v) := by
  constructor
  · intro ht hv
    rw [(check_nonneg_iff v).mpr hv] at ht
    cases ht
  · intro hnv
    cases hB : ((Page.parseNumber v).isNaNB || (Page.parseNumber v).lt (JSNum.fin 0))
    · exact absurd ((check_nonneg_iff v).mp hB) hnv
    · rfl

/-- A failed positivity check, as the Bool the code branches on. -/
lemma check_pos_true (v : String) :
    (((Page.parseNumber v).isNaNB || (Page.parseNumber v).le (JSNum.fin 0)) = true) ↔
      ¬ validPos (Page.parseNumber v) := by
  constructor
  · intro ht hv
    rw [(check_pos_iff v).mpr hv] at ht
    cases ht
  · intro hnv
    cases hB : ((Page.parseNumber v).isNaNB || (Page.parseNumber v).le (JSNum.fin 0))
    · exact absurd ((check_pos_iff v).mp hB) hnv
    · rfl

/-- An invalid price aborts `compute` with `InvalidPrice`. -/
lemma compute_error_price (env : DateEnv) (p c d r date : String)
    (h : ¬ validNonneg (Page.parseNumber p)) :
    Page.compute env p c d r date = Except.error ComputeError.InvalidPrice := by
  rw [compute_eq, if_pos ((check_nonneg_true p).mpr h)]

/-- A valid price but invalid holding aborts `compute` with `InvalidHolding`. -/
lemma compute_error_holding (env : DateEnv) (p c d r date : String)
    (h1 : validNonneg (Page.parseNumber p)) (h2 : ¬ validNonneg (Page.parseNumber c)) :
    Page.compute env p c d r date = Except.error ComputeError.InvalidHolding := by
  rw [compute_eq]
  simp [(check_nonneg_iff p).mpr h1, (check_nonneg_true c).mpr h2]

/-- Valid price and holding but invalid accrual aborts with `InvalidAccrual`. -/
lemma compute_error_accrual (env : DateEnv) (p c d r date : String)
    (h1 : validNonneg (Page.parseNumber p)) (h2 : validNonneg (Page.parseNumber c))
    (h3 : ¬ validNonneg (Page.parseNumber d)) :
    Page.compute env p c d r date = Except.error ComputeError.InvalidAccrual := by
  rw [compute_eq]
  simp [(check_nonneg_iff p).mpr h1, (check_nonneg_iff c).mpr h2, (check_nonneg_true d).mpr h3]

/-- Valid price, holding and accrual but invalid rate aborts with `InvalidRate`. -/
lemma compute_error_rate (env : DateEnv) (p c d r date : String)
    (h1 : validNonneg (Page.parseNumber p)) (h2 : validNonneg (Page.parseNumber c))
    (h3 : validNonneg (Page.parseNumber d)) (h4 : ¬ validPos (Page.parseNumber r)) :
    Page.compute env p c d r date = Except.error ComputeError.InvalidRate := by
  rw [compute_eq]
  simp [(check_nonneg_iff p).mpr h1, (check_nonneg_iff c).mpr h2, (check_nonneg_iff d).mpr h3,
    (check_pos_true r).mpr h4]

/-- When all four checks pass, `compute` succeeds. -/
lemma compute_ok (env : DateEnv) (p c d r date : String)
    (h1 : validNonneg (Page.parseNumber p)) (h2 : validNonneg (Page.parseNumber c))
    (h3 : validNonneg (Page.parseNumber d)) (h4 : validPos (Page.parseNumber r)) :
    ∃ res : Result, Page.compute env p c d r date = Except.ok res := by
  rw [compute_eq]
  simp only [(check_nonneg_iff p).mpr h1, (check_nonneg_iff c).mpr h2,
    (check_nonneg_iff d).mpr h3, (check_pos_iff r).mpr h4, Bool.false_eq_true, if_false]
  split
  · exact ⟨_, rfl⟩
  · exact ⟨_, rfl⟩

/-- C1: the four parsed inputs are validated in the fixed order price,
holding, dailyAccrual, rate; the first failing check determines the reported
error: `InvalidPrice` iff the price is not a finite number ≥ 0, otherwise
`InvalidHolding` iff the holding is not, otherwise `InvalidAccrual` iff the
accrual is not, otherwise `InvalidRate` iff the rate is not a finite number
> 0 (zero and negative rates rejected); a result is produced exactly when all
four checks pass.  In particular simultaneously invalid price and holding
report `InvalidPrice`, and a zero rate reports `InvalidRate` with no result. -/
theorem compute_validation_order (env : DateEnv) (p c d r date : String) :
    (Page.compute env p c d r date = Except.error ComputeError.InvalidPrice ↔
      ¬ validNonneg (Page.parseNumber p)) ∧
    (Page.compute env p c d r date = Except.error ComputeError.InvalidHolding ↔
      validNonneg (Page.parseNumber p) ∧ ¬ validNonneg (Page.parseNumber c)) ∧
    (Page.compute env p c d r date = Except.error ComputeError.InvalidAccrual ↔
      validNonneg (Page.parseNumber p) ∧ validNonneg (Page.parseNumber c) ∧
        ¬ validNonneg (Page.parseNumber d)) ∧
    (Page.compute env p c d r date = Except.error ComputeError.InvalidRate ↔
      validNonneg (Page.parseNumber p) ∧ validNonneg (Page.parseNumber c) ∧
        validNonneg (Page.parseNumber d) ∧ ¬ validPos (Page.parseNumber r)) ∧
    ((∃ res : Result, Page.compute env p c d r date = Except.ok res) ↔
      validNonneg (Page.parseNumber p) ∧ validNonneg (Page.parseNumber c) ∧
        validNonneg (Page.parseNumber d) ∧ validPos (Page.parseNumber r)) := by
  by_cases h1 : validNonneg (Page.parseNumber p)
  · by_cases h2 : validNonneg (Page.parseNumber c)
    · by_cases h3 : validNonneg (Page.parseNumber d)
      · by_cases h4 : validPos (Page.parseNumber r)
        · obtain ⟨res, hres⟩ := compute_ok env p c d r date h1 h2 h3 h4
          refine ⟨?_, ?_, ?_, ?_, ?_⟩ <;> simp [hres, h1, h2, h3, h4]
        · have hc := compute_error_rate env p c d r date h1 h2 h3 h4
          refine ⟨?_, ?_, ?_, ?_, ?_⟩ <;> simp [hc, h1, h2, h3, h4]
      · have hc := compute_error_accrual env p c d r date h1 h2 h3
        refine ⟨?_, ?_, ?_, ?_, ?_⟩ <;> simp [hc, h1, h2, h3]
    · have hc := compute_error_holding env p c d r date h1 h2
      refine ⟨?_, ?_, ?_, ?_, ?_⟩ <;> simp [hc, h1, h2]
  · have hc := compute_error_price env p c d r date h1
    refine ⟨?_, ?_, ?_, ?_, ?_⟩ <;> simp [hc, h1]

/-- The raw day count the engine computes for a parseable target date:
`ceil((targetLocalMidnight - todayLocalMidnight) / 86400000)`. -/
def ceilDays (env : DateEnv) (y : ℤ) (m d : ℕ) : ℤ :=
  ⌈(((localMidnightMs env y m d : ℤ) : ℚ) - ((env.todayMidnightMs : ℤ) : ℚ)) / 86400000⌉

/-- The projection window: the raw day count floored at zero. -/
def projDays (env : DateEnv) (y : ℤ) (m d : ℕ) : ℤ := max (ceilDays env y m d) 0

/-- With all inputs valid, a positive accrual and a parseable target date,
`compute` returns the fully projected record. -/
lemma compute_proj_parse (env : DateEnv) (p c d r date : String) (pq cq dq rq : ℚ)
    (y : ℤ) (mo dd : ℕ)
    (hp : Page.parseNumber p = JSNum.fin pq) (hp0 : 0 ≤ pq)
    (hc : Page.parseNumber c = JSNum.fin cq) (hc0 : 0 ≤ cq)
    (hd : Page.parseNumber d = JSNum.fin dq) (hd0 : 0 < dq)
    (hr : Page.parseNumber r = JSNum.fin rq) (hr0 : 0 < rq)
    (hdate : parseISODate date = some (y, mo, dd)) :
    Page.compute env p c d r date = Except.ok
      { totalUSDT := JSNum.fin (pq * cq),
        totalIDR := JSNum.fin (pq * cq * rq),
        projectedUSDT := some (JSNum.fin ((cq + dq * ((projDays env y mo dd : ℤ) : ℚ)) * pq)),
        projectedIDR := some (JSNum.fin ((cq + dq * ((projDays env y mo dd : ℤ) : ℚ)) * pq * rq)),
        daysProjected := some (JSNum.fin ((projDays env y mo dd : ℤ) : ℚ)) } := by
  have hne : date ≠ "" := by
    intro h
    rw [h] at hdate
    have : parseISODate "" = none := rfl
    rw [this] at hdate
    exact Option.noConfusion hdate
  have h1 := (check_nonneg_iff p).mpr ⟨pq, hp, hp0⟩
  have h2 := (check_nonneg_iff c).mpr ⟨cq, hc, hc0⟩
  have h3 := (check_nonneg_iff d).mpr ⟨dq, hd, hd0.le⟩
  have h4 := (check_pos_iff r).mpr ⟨rq, hr, hr0⟩
  have hnd : newDateT00 env date = JSNum.fin ((localMidnightMs env y mo dd : ℤ) : ℚ) := by
    rw [newDateT00, hdate]
  rw [compute_eq]
  simp only [h1, h2, h3, h4, Bool.false_eq_true, if_false]
  rw [hp, hc, hd, hr, hnd]
  have hcond : ((JSNum.fin 0).lt (JSNum.fin dq) && date != "") = true := by
    simp [JSNum.lt, hd0, hne]
  rw [if_pos hcond]
  simp only [JSNum.sub, JSNum.neg, JSNum.add, JSNum.div]
  rw [if_neg (by norm_num : ¬ (86400000 : ℚ) = 0)]
  simp only [JSNum.ceil]
  have hsub : ((localMidnightMs env y mo dd : ℤ) : ℚ) + -((env.todayMidnightMs : ℤ) : ℚ) =
      ((localMidnightMs env y mo dd : ℤ) : ℚ) - ((env.todayMidnightMs : ℤ) : ℚ) :=
    (sub_eq_add_neg _ _).symm
  rw [hsub]
  rw [show (⌈(((localMidnightMs env y mo dd : ℤ) : ℚ) -
      ((env.todayMidnightMs : ℤ) : ℚ)) / 86400000⌉ : ℤ) = ceilDays env y mo dd from rfl]
  simp only [JSNum.lt]
  have hdays : (if decide ((0 : ℚ) < ((ceilDays env y mo dd : ℤ) : ℚ)) = true then
      JSNum.fin ((ceilDays env y mo dd : ℤ) : ℚ) else JSNum.fin 0) =
      JSNum.fin ((projDays env y mo dd : ℤ) : ℚ) := by
    rcases lt_or_le 0 (ceilDays env y mo dd) with hk | hk
    · rw [if_pos (by simp only [decide_eq_true_eq]; exact_mod_cast hk),
        projDays, max_eq_left hk.le]
    · rw [if_neg (by simp only [decide_eq_true_eq, not_lt]; exact_mod_cast hk),
        projDays, max_eq_right hk]
      norm_num
  rw [hdays]
  simp only [JSNum.mul, JSNum.add]

/-- With all inputs valid and the projection gate off (zero accrual or empty
date string), `compute` returns the bare present-value record. -/
lemma compute_noproj (env : DateEnv) (p c d r date : String) (pq cq dq rq : ℚ)
    (hp : Page.parseNumber p = JSNum.fin pq) (hp0 : 0 ≤ pq)
    (hc : Page.parseNumber c = JSNum.fin cq) (hc0 : 0 ≤ cq)
    (hd : Page.parseNumber d = JSNum.fin dq) (hd0 : 0 ≤ dq)
    (hr : Page.parseNumber r = JSNum.fin rq) (hr0 : 0 < rq)
    (hoff : dq = 0 ∨ date = "") :
    Page.compute env p c d r date = Except.ok
      { totalUSDT := JSNum.fin (pq * cq), totalIDR := JSNum.fin (pq * cq * rq) } := by
  have h1 := (check_nonneg_iff p).mpr ⟨pq, hp, hp0⟩
  have h2 := (check_nonneg_iff c).mpr ⟨cq, hc, hc0⟩
  have h3 := (check_nonneg_iff d).mpr ⟨dq, hd, hd0⟩
  have h4 := (check_pos_iff r).mpr ⟨rq, hr, hr0⟩
  have hcond : ((JSNum.fin 0).lt (Page.parseNumber d) && date != "") = false := by
    rcases hoff with h | h
    · rw [hd, h]; simp [JSNum.lt]
    · rw [h]; simp
  rw [compute_eq]
  simp only [h1, h2, h3, h4, Bool.false_eq_true, if_false]
  rw [if_neg (by rw [hcond]; exact Bool.false_ne_true)]
  rw [hp, hc, hr]
  simp only [JSNum.mul]

/-- With all inputs valid, a positive accrual and a non-empty but unparseable
date string, the projection block is still emitted: the Invalid Date time is
NaN, the NaN day count fails the `> 0` test, and the block degenerates to a
zero-day projection. -/
lemma compute_proj_badparse (env : DateEnv) (p c d r date : String) (pq cq dq rq : ℚ)
    (hp : Page.parseNumber p = JSNum.fin pq) (hp0 : 0 ≤ pq)
    (hc : Page.parseNumber c = JSNum.fin cq) (hc0 : 0 ≤ cq)
    (hd : Page.parseNumber d = JSNum.fin dq) (hd0 : 0 < dq)
    (hr : Page.parseNumber r = JSNum.fin rq) (hr0 : 0 < rq)
    (hne : date ≠ "") (hbad : parseISODate date = none) :
    Page.compute env p c d r date = Except.ok
      { totalUSDT := JSNum.fin (pq * cq), totalIDR := JSNum.fin (pq * cq * rq),
        projectedUSDT := some (JSNum.fin ((cq + dq * 0) * pq)),
        projectedIDR := some (JSNum.fin ((cq + dq * 0) * pq * rq)),
        daysProjected := some (JSNum.fin 0) } := by
  have h1 := (check_nonneg_iff p).mpr ⟨pq, hp, hp0⟩
  have h2 := (check_nonneg_iff c).mpr ⟨cq, hc, hc0⟩
  have h3 := (check_nonneg_iff d).mpr ⟨dq, hd, hd0.le⟩
  have h4 := (check_pos_iff r).mpr ⟨rq, hr, hr0⟩
  have hnd : newDateT00 env date = JSNum.nan := by rw [newDateT00, hbad]
  rw [compute_eq]
  simp only [h1, h2, h3, h4, Bool.false_eq_true, if_false]
  rw [hp, hc, hd, hr, hnd]
  have hcond : ((JSNum.fin 0).lt (JSNum.fin dq) && date != "") = true := by
    simp [JSNum.lt, hd0, hne]
  rw [if_pos hcond]
  simp [JSNum.sub, JSNum.neg, JSNum.add, JSNum.div, JSNum.ceil, JSNum.lt, JSNum.mul]

/-- The two source files define extensionally (indeed definitionally) equal
`parseNumber` functions. -/
lemma parseNumber_agree (v : String) : Page.parseNumber v = Part000.parseNumber v := rfl

/-- The two source files define extensionally (indeed definitionally) equal
`compute` functions. -/
lemma compute_agree (env : DateEnv) (p c d r date : String) :
    Page.compute env p c d r date = Part000.compute env p c d r date := rfl

/-- A concrete date environment for witnesses: today is 2026-10-11, UTC. -/
def sampleEnv : DateEnv := ⟨2026, 10, 11, 0⟩

/-- C2: when the four inputs pass validation, the result satisfies
`totalBaseValue = price * holding` and `totalFiatValue = totalBaseValue *
rate`, as the engine's multiplications of the parsed inputs (modelled
exactly over ℚ). -/
theorem compute_present_value (env : DateEnv) (p c d r date : String) (pq cq dq rq : ℚ)
    (hp : Page.parseNumber p = JSNum.fin pq) (hp0 : 0 ≤ pq)
    (hc : Page.parseNumber c = JSNum.fin cq) (hc0 : 0 ≤ cq)
    (hd : Page.parseNumber d = JSNum.fin dq) (hd0 : 0 ≤ dq)
    (hr : Page.parseNumber r = JSNum.fin rq) (hr0 : 0 < rq) :
    ∃ res : Result, Page.compute env p c d r date = Except.ok res ∧
      res.totalUSDT = JSNum.fin (pq * cq) ∧
      res.totalIDR = JSNum.fin (pq * cq * rq) ∧
      res.totalUSDT = (Page.parseNumber p).mul (Page.parseNumber c) ∧
      res.totalIDR = res.totalUSDT.mul (Page.parseNumber r) := by
  have h1 := (check_nonneg_iff p).mpr ⟨pq, hp, hp0⟩
  have h2 := (check_nonneg_iff c).mpr ⟨cq, hc, hc0⟩
  have h3 := (check_nonneg_iff d).mpr ⟨dq, hd, hd0⟩
  have h4 := (check_pos_iff r).mpr ⟨rq, hr, hr0⟩
  rw [compute_eq]
  simp only [h1, h2, h3, h4, Bool.false_eq_true, if_false]
  split <;> exact ⟨_, rfl, by simp [hp, hc, JSNum.mul], by simp [hp, hc, hr, JSNum.mul], rfl, rfl⟩

/-- C3: with valid inputs, a positive accrual and a parseable target date,
today and the target are both taken at local midnight,
`daysProjected = max(ceil((targetMidnight - todayMidnight) / 86400000), 0)`
is a non-negative integer, `projectedBaseValue = (holding + dailyAccrual *
daysProjected) * price`, and `projectedFiatValue = projectedBaseValue *
rate`. -/
theorem compute_projection_formula (env : DateEnv) (p c d r date : String)
    (pq cq dq rq : ℚ) (y : ℤ) (mo dd : ℕ)
    (hp : Page.parseNumber p = JSNum.fin pq) (hp0 : 0 ≤ pq)
    (hc : Page.parseNumber c = JSNum.fin cq) (hc0 : 0 ≤ cq)
    (hd : Page.parseNumber d = JSNum.fin dq) (hd0 : 0 < dq)
    (hr : Page.parseNumber r = JSNum.fin rq) (hr0 : 0 < rq)
    (hdate : parseISODate date = some (y, mo, dd)) :
    ∃ res : Result, Page.compute env p c d r date = Except.ok res ∧
      res.daysProjected = some (JSNum.fin ((projDays env y mo dd : ℤ) : ℚ)) ∧
      projDays env y mo dd = max (ceilDays env y mo dd) 0 ∧
      0 ≤ projDays env y mo dd ∧
      res.projectedUSDT = some (JSNum.fin ((cq + dq * ((projDays env y mo dd : ℤ) : ℚ)) * pq)) ∧
      res.projectedIDR =
        some (JSNum.fin ((cq + dq * ((projDays env y mo dd : ℤ) : ℚ)) * pq * rq)) :=
  ⟨_, compute_proj_parse env p c d r date pq cq dq rq y mo dd hp hp0 hc hc0 hd hd0 hr hr0 hdate,
    rfl, rfl, le_max_right _ _, rfl, rfl⟩

/-- C5: with valid inputs, a positive accrual and a parseable target date not
later than today (at local midnight), the projection block is still emitted
and degenerates: `daysProjected = 0`, `projectedBaseValue = totalBaseValue`,
`projectedFiatValue = totalFiatValue`. -/
theorem compute_projection_floor (env : DateEnv) (p c d r date : String)
    (pq cq dq rq : ℚ) (y : ℤ) (mo dd : ℕ)
    (hp : Page.parseNumber p = JSNum.fin pq) (hp0 : 0 ≤ pq)
    (hc : Page.parseNumber c = JSNum.fin cq) (hc0 : 0 ≤ cq)
    (hd : Page.parseNumber d = JSNum.fin dq) (hd0 : 0 < dq)
    (hr : Page.parseNumber r = JSNum.fin rq) (hr0 : 0 < rq)
    (hdate : parseISODate date = some (y, mo, dd))
    (hpast : localMidnightMs env y mo dd ≤ env.todayMidnightMs) :
    ∃ res : Result, Page.compute env p c d r date = Except.ok res ∧
      res.daysProjected = some (JSNum.fin 0) ∧
      res.projectedUSDT = some res.totalUSDT ∧
      res.projectedIDR = some res.totalIDR := by
  have hk : ceilDays env y mo dd ≤ 0 := by
    rw [ceilDays]
    have hx : (((localMidnightMs env y mo dd : ℤ) : ℚ) -
        ((env.todayMidnightMs : ℤ) : ℚ)) / 86400000 ≤ 0 := by
      apply div_nonpos_of_nonpos_of_nonneg
      · simpa using sub_nonpos.mpr (show ((localMidnightMs env y mo dd : ℤ) : ℚ) ≤
          ((env.todayMidnightMs : ℤ) : ℚ) by exact_mod_cast hpast)
      · norm_num
    exact_mod_cast Int.ceil_le.mpr (by exact_mod_cast hx)
  have hmax : projDays env y mo dd = 0 := max_eq_right hk
  refine ⟨_, compute_proj_parse env p c d r date pq cq dq rq y mo dd
    hp hp0 hc hc0 hd hd0 hr hr0 hdate, ?_, ?_, ?_⟩
  · simp [hmax]
  · simp only [hmax, Int.cast_zero, mul_zero, add_zero]
    rw [mul_comm cq pq]
  · simp only [hmax, Int.cast_zero, mul_zero, add_zero]
    rw [mul_comm cq pq]

/-- C4 (counterexample to the claim as stated): with valid inputs, a positive
accrual and the non-empty but unparseable target date `"xx"`, the result does
contain the projection fields (with `daysProjected = 0`), contradicting
"empty or unparseable date implies no projection fields". -/
theorem projection_absence_cex :
    parseISODate "xx" = none ∧ "xx" ≠ "" ∧
    Page.compute sampleEnv "1" "1" "1" "15000" "xx" = Except.ok
      { totalUSDT := JSNum.fin (1 * 1), totalIDR := JSNum.fin (1 * 1 * 15000),
        projectedUSDT := some (JSNum.fin ((1 + 1 * 0) * 1)),
        projectedIDR := some (JSNum.fin ((1 + 1 * 0) * 1 * 15000)),
        daysProjected := some (JSNum.fin 0) } ∧
    some (JSNum.fin ((1 + 1 * 0 : ℚ) * 1)) ≠ (none : Option JSNum) := by
  refine ⟨rfl, by decide, ?_, by simp⟩
  rfl

/-- C4 (amended): with valid inputs, if the accrual is zero or the target
date string is empty, the result contains none of the projection fields and
no validation error arises; with a positive accrual, a non-empty but
unparseable date string still emits the projection block, degenerated to
`daysProjected = 0`. -/
theorem projection_absence (env : DateEnv) (p c d r date : String) (pq cq dq rq : ℚ)
    (hp : Page.parseNumber p = JSNum.fin pq) (hp0 : 0 ≤ pq)
    (hc : Page.parseNumber c = JSNum.fin cq) (hc0 : 0 ≤ cq)
    (hd : Page.parseNumber d = JSNum.fin dq) (hd0 : 0 ≤ dq)
    (hr : Page.parseNumber r = JSNum.fin rq) (hr0 : 0 < rq) :
    (dq = 0 ∨ date = "" →
      ∃ res : Result, Page.compute env p c d r date = Except.ok res ∧
        res.projectedUSDT = none ∧ res.projectedIDR = none ∧ res.daysProjected = none) ∧
    (0 < dq → date ≠ "" → parseISODate date = none →
      ∃ res : Result, Page.compute env p c d r date = Except.ok res ∧
        res.daysProjected = some (JSNum.fin 0) ∧
        res.projectedUSDT = some (JSNum.fin ((cq + dq * 0) * pq))) := by
  constructor
  · intro hoff
    exact ⟨_, compute_noproj env p c d r date pq cq dq rq hp hp0 hc hc0 hd hd0 hr hr0 hoff,
      rfl, rfl, rfl⟩
  · intro hpos hne hbad
    exact ⟨_, compute_proj_badparse env p c d r date pq cq dq rq
      hp hp0 hc hc0 hd hpos hr hr0 hne hbad, rfl, rfl⟩

/-- C7: in every successful result the three projection fields are present as
a group or absent as a group, never a strict non-empty subset. -/
theorem projection_fields_grouped (env : DateEnv) (p c d r date : String) (res : Result)
    (h : Page.compute env p c d r date = Except.ok res) :
    (res.projectedUSDT.isSome = true ∧ res.projectedIDR.isSome = true ∧
      res.daysProjected.isSome = true) ∨
    (res.projectedUSDT = none ∧ res.projectedIDR = none ∧ res.daysProjected = none) := by
  rw [compute_eq] at h
  split at h
  · exact absurd h (by simp)
  split at h
  · exact absurd h (by simp)
  split at h
  · exact absurd h (by simp)
  split at h
  · exact absurd h (by simp)
  split at h
  · cases Except.ok.inj h
    exact Or.inl ⟨rfl, rfl, rfl⟩
  · cases Except.ok.inj h
    exact Or.inr ⟨rfl, rfl, rfl⟩

/-- C8: a validation failure is reported as a discriminated message, the
computation aborts with no result value, and a step of the UI state keeps the
previously stored result unchanged while setting the error message. -/
theorem compute_failure_reporting (st : UIState) (env : DateEnv) (p c d r date : String)
    (e : ComputeError) (h : Page.compute env p c d r date = Except.error e) :
    (computeStep st env p c d r date).result = st.result ∧
    (computeStep st env p c d r date).error = errorMessage e ∧
    (∀ e' : ComputeError, errorMessage e = errorMessage e' → e = e') ∧
    (∀ res : Result, Page.compute env p c d r date ≠ Except.ok res) := by
  refine ⟨?_, ?_, ?_, ?_⟩
  · simp [computeStep, h]
  · simp [computeStep, h]
  · intro e' heq
    cases e <;> cases e' <;> first
      | rfl
      | exact absurd heq (by decide)
  · intro res hres
    rw [h] at hres
    exact Except.noConfusion hres

/-- C9: the exchange-rate fetch never fails hard: a network error, a payload
without a `rates` member, or a `rates` member without a usable `IDR` entry
all resolve to the fixed fallback `"15000"` with the advisory message; a
usable `IDR` figure is adopted as the rate; and a later `compute` call with
the fallback rate string still succeeds on otherwise valid inputs. -/
theorem fetchExchangeRate_fallback (st : Part000.RateState) :
    ((Part000.fetchExchangeRate Part000.RateResponse.netError st).usdToIdr = "15000" ∧
      (Part000.fetchExchangeRate Part000.RateResponse.netError st).error =
        "Gagal memuat kurs USD→IDR. Gunakan nilai default.") ∧
    ((Part000.fetchExchangeRate (Part000.RateResponse.json none) st).usdToIdr = "15000" ∧
      (Part000.fetchExchangeRate (Part000.RateResponse.json none) st).error =
        "Gagal memuat kurs USD→IDR. Gunakan nilai default.") ∧
    (∀ rates : List (String × ℚ), List.lookup "IDR" rates = none →
      (Part000.fetchExchangeRate (Part000.RateResponse.json (some rates)) st).usdToIdr =
          "15000" ∧
        (Part000.fetchExchangeRate (Part000.RateResponse.json (some rates)) st).error =
          "Gagal memuat kurs USD→IDR. Gunakan nilai default.") ∧
    (∀ (rates : List (String × ℚ)) (v : ℚ), List.lookup "IDR" rates = some v → v ≠ 0 →
      (Part000.fetchExchangeRate (Part000.RateResponse.json (some rates)) st).usdToIdr =
        Part000.rateToString v) ∧
    (∀ (env : DateEnv) (p c d date : String) (pq cq dq : ℚ),
      Part000.parseNumber p = JSNum.fin pq → 0 ≤ pq →
      Part000.parseNumber c = JSNum.fin cq → 0 ≤ cq →
      Part000.parseNumber d = JSNum.fin dq → 0 ≤ dq →
      ∃ res : Result, Part000.compute env p c d "15000" date = Except.ok res) := by
  refine ⟨⟨rfl, rfl⟩, ⟨rfl, rfl⟩, ?_, ?_, ?_⟩
  · intro rates hl
    constructor <;> simp [Part000.fetchExchangeRate, hl]
  · intro rates v hl hv
    simp [Part000.fetchExchangeRate, hl, hv]
  · intro env p c d date pq cq dq hp hp0 hc hc0 hd hd0
    rw [← compute_agree]
    have hp' : Page.parseNumber p = JSNum.fin pq := by rw [parseNumber_agree]; exact hp
    have hc' : Page.parseNumber c = JSNum.fin cq := by rw [parseNumber_agree]; exact hc
    have hd' : Page.parseNumber d = JSNum.fin dq := by rw [parseNumber_agree]; exact hd
    have hr : Page.parseNumber "15000" = JSNum.fin 15000 := rfl
    exact compute_ok env p c d "15000" date ⟨pq, hp', hp0⟩ ⟨cq, hc', hc0⟩ ⟨dq, hd', hd0⟩
      ⟨15000, hr, by norm_num⟩

/-- C10: the engine logic of the two source files is extensionally equal:
`parseNumber` agrees on every string, and `compute` agrees on every input
tuple and date environment. -/
theorem engine_equivalence :
    (∀ v : String, Page.parseNumber v = Part000.parseNumber v) ∧
    (∀ (env : DateEnv) (p c d r date : String),
      Page.compute env p c d r date = Part000.compute env p c d r date) :=
  ⟨fun _ => rfl, fun _ _ _ _ _ _ => rfl⟩

/-- Removing commas is idempotent. -/
lemma removeCommas_idem (v : String) : removeCommas (removeCommas v) = removeCommas v := by
  simp [removeCommas, List.filter_filter, Bool.and_self]

/-- Trimming a whitespace-only string yields the empty string. -/
lemma jsTrim_spaces (v : String) (h : ∀ c ∈ v.data, isJsSpace c = true) : jsTrim v = "" := by
  rw [jsTrim]
  have h1 : v.data.dropWhile isJsSpace = [] := List.dropWhile_eq_nil_iff.mpr h
  rw [h1]
  rfl

/-- A whitespace-only string contains no commas. -/
lemma removeCommas_spaces (v : String) (h : ∀ c ∈ v.data, isJsSpace c = true) :
    removeCommas v = v := by
  rw [removeCommas]
  have : v.data.filter (fun c => c != ',') = v.data := by
    apply List.filter_eq_self.mpr
    intro c hc
    simp only [bne_iff_ne, ne_eq]
    intro heq
    have hcs := h c hc
    rw [heq] at hcs
    have : isJsSpace ',' = false := rfl
    rw [this] at hcs
    cases hcs
  rw [this]

/-- C6: `parseNumber` maps empty and whitespace-only input to `0`; on any
other input it removes all commas, trims, converts the cleaned string with
the decimal parsing of `Number`, and replaces a non-finite conversion by the
NaN sentinel; the sentinel is distinct from `0`; and the result of any input
equals that of its comma-free form (thousands separators are transparent). -/
theorem parseNumber_contract :
    (∀ v : String, (∀ c ∈ v.data, isJsSpace c = true) → Page.parseNumber v = JSNum.fin 0) ∧
    (∀ v : String, v ≠ "" → Page.parseNumber v =
      (if (jsNumber (jsTrim (removeCommas v))).isFiniteB then
        jsNumber (jsTrim (removeCommas v))
      else JSNum.nan)) ∧
    Page.parseNumber "" = JSNum.fin 0 ∧
    Page.parseNumber "abc" = JSNum.nan ∧
    Page.parseNumber "Infinity" = JSNum.nan ∧
    Page.parseNumber "1e" = JSNum.nan ∧
    JSNum.nan ≠ JSNum.fin 0 ∧
    (∀ v : String, Page.parseNumber v = Page.parseNumber (removeCommas v)) := by
  refine ⟨?_, ?_, rfl, rfl, rfl, rfl, by decide, ?_⟩
  · intro v h
    by_cases hv : v = ""
    · rw [hv]; rfl
    · rw [parseNumber_eq, if_neg hv, removeCommas_spaces v h, jsTrim_spaces v h]
      rfl
  · intro v hv
    rw [parseNumber_eq, if_neg hv]
  · intro v
    by_cases hv : v = ""
    · rw [hv]; rfl
    · by_cases hrc : removeCommas v = ""
      · rw [parseNumber_eq, if_neg hv, hrc, parseNumber_eq, if_pos rfl]
        rfl
      · rw [parseNumber_eq, if_neg hv, parseNumber_eq (removeCommas v), if_neg hrc,
          removeCommas_idem]

/-- Witness for C2 at price `"2"`, holding `"3"`, accrual `"0"`, rate
`"15000"`, no date. -/
theorem compute_present_value_witness :
    ∃ res : Result, Page.compute sampleEnv "2" "3" "0" "15000" "" = Except.ok res ∧
      res.totalUSDT = JSNum.fin (2 * 3) ∧
      res.totalIDR = JSNum.fin (2 * 3 * 15000) ∧
      res.totalUSDT = (Page.parseNumber "2").mul (Page.parseNumber "3") ∧
      res.totalIDR = res.totalUSDT.mul (Page.parseNumber "15000") :=
  compute_present_value sampleEnv "2" "3" "0" "15000" "" 2 3 0 15000
    rfl (by norm_num) rfl (by norm_num) rfl le_rfl rfl (by norm_num)

/-- Witness for C3 at a target date 81 days after the sample today. -/
theorem compute_projection_formula_witness :
    ∃ res : Result, Page.compute sampleEnv "2" "3" "1" "15000" "2026-12-31" = Except.ok res ∧
      res.daysProjected = some (JSNum.fin ((projDays sampleEnv 2026 12 31 : ℤ) : ℚ)) ∧
      projDays sampleEnv 2026 12 31 = max (ceilDays sampleEnv 2026 12 31) 0 ∧
      0 ≤ projDays sampleEnv 2026 12 31 ∧
      res.projectedUSDT =
        some (JSNum.fin ((3 + 1 * ((projDays sampleEnv 2026 12 31 : ℤ) : ℚ)) * 2)) ∧
      res.projectedIDR =
        some (JSNum.fin ((3 + 1 * ((projDays sampleEnv 2026 12 31 : ℤ) : ℚ)) * 2 * 15000)) :=
  compute_projection_formula sampleEnv "2" "3" "1" "15000" "2026-12-31" 2 3 1 15000 2026 12 31
    rfl (by norm_num) rfl (by norm_num) rfl one_pos rfl (by norm_num) rfl

/-- Witness for C4's amended claim: a zero accrual yields a result without
any projection field. -/
theorem projection_absence_witness :
    ∃ res : Result, Page.compute sampleEnv "2" "3" "0" "15000" "2026-12-31" = Except.ok res ∧
      res.projectedUSDT = none ∧ res.projectedIDR = none ∧ res.daysProjected = none :=
  (projection_absence sampleEnv "2" "3" "0" "15000" "2026-12-31" 2 3 0 15000
    rfl (by norm_num) rfl (by norm_num) rfl le_rfl rfl (by norm_num)).1 (Or.inl rfl)

/-- Witness for C5 at a target date ten days before the sample today. -/
theorem compute_projection_floor_witness :
    ∃ res : Result, Page.compute sampleEnv "2" "3" "1" "15000" "2026-10-01" = Except.ok res ∧
      res.daysProjected = some (JSNum.fin 0) ∧
      res.projectedUSDT = some res.totalUSDT ∧
      res.projectedIDR = some res.totalIDR :=
  compute_projection_floor sampleEnv "2" "3" "1" "15000" "2026-10-01" 2 3 1 15000 2026 10 1
    rfl (by norm_num) rfl (by norm_num) rfl one_pos rfl (by norm_num) rfl (by decide)

/-- Witness for C6: a whitespace-only string parses to `0`, and a
thousands-separated string parses like its comma-free form. -/
theorem parseNumber_contract_witness :
    Page.parseNumber " " = JSNum.fin 0 ∧ Page.parseNumber "1,000" = Page.parseNumber "1000" := by
  obtain ⟨h1, _, _, _, _, _, _, h8⟩ := parseNumber_contract
  refine ⟨h1 " " (by decide), ?_⟩
  have h := h8 "1,000"
  have hrc : removeCommas "1,000" = "1000" := rfl
  rw [hrc] at h
  exact h

/-- Witness for C7 on a concrete successful computation without projection. -/
theorem projection_fields_grouped_witness :
    (({ totalUSDT := JSNum.fin (2 * 3), totalIDR := JSNum.fin (2 * 3 * 15000) } :
        Result).projectedUSDT.isSome = true ∧
      ({ totalUSDT := JSNum.fin (2 * 3), totalIDR := JSNum.fin (2 * 3 * 15000) } :
        Result).projectedIDR.isSome = true ∧
      ({ totalUSDT := JSNum.fin (2 * 3), totalIDR := JSNum.fin (2 * 3 * 15000) } :
        Result).daysProjected.isSome = true) ∨
    (({ totalUSDT := JSNum.fin (2 * 3), totalIDR := JSNum.fin (2 * 3 * 15000) } :
        Result).projectedUSDT = none ∧
      ({ totalUSDT := JSNum.fin (2 * 3), totalIDR := JSNum.fin (2 * 3 * 15000) } :
        Result).projectedIDR = none ∧
      ({ totalUSDT := JSNum.fin (2 * 3), totalIDR := JSNum.fin (2 * 3 * 15000) } :
        Result).daysProjected = none) :=
  projection_fields_grouped sampleEnv "2" "3" "0" "15000" ""
    { totalUSDT := JSNum.fin (2 * 3), totalIDR := JSNum.fin (2 * 3 * 15000) } rfl

/-- Witness for C8 on a failing price input. -/
theorem compute_failure_reporting_witness :
    (computeStep { result := none, error := "" } sampleEnv "abc" "1" "1" "15000" "").result =
        ({ result := none, error := "" } : UIState).result ∧
      (computeStep { result := none, error := "" } sampleEnv "abc" "1" "1" "15000" "").error =
        errorMessage ComputeError.InvalidPrice ∧
      (∀ e' : ComputeError,
        errorMessage ComputeError.InvalidPrice = errorMessage e' →
          ComputeError.InvalidPrice = e') ∧
      (∀ res : Result,
        Page.compute sampleEnv "abc" "1" "1" "15000" "" ≠ Except.ok res) :=
  compute_failure_reporting { result := none, error := "" } sampleEnv "abc" "1" "1" "15000" ""
    ComputeError.InvalidPrice rfl

/-- Witness for C9 on concrete payloads and a concrete fallback computation. -/
theorem fetchExchangeRate_fallback_witness :
    (Part000.fetchExchangeRate (Part000.RateResponse.json (some [("USD", 1)]))
        { usdToIdr := "", error := "", isLoadingRate := false }).usdToIdr = "15000" ∧
    (Part000.fetchExchangeRate (Part000.RateResponse.json (some [("IDR", 16245)]))
        { usdToIdr := "", error := "", isLoadingRate := false }).usdToIdr =
      Part000.rateToString 16245 ∧
    ∃ res : Result, Part000.compute sampleEnv "2" "3" "0" "15000" "" = Except.ok res := by
  obtain ⟨h1, h2, h3, h4, h5⟩ :=
    fetchExchangeRate_fallback { usdToIdr := "", error := "", isLoadingRate := false }
  exact ⟨(h3 [("USD", 1)] (by decide)).1, h4 [("IDR", 16245)] 16245 (by decide) (by norm_num),
    h5 sampleEnv "2" "3" "0" "" 2 3 0 rfl (by norm_num) rfl (by norm_num) rfl le_rfl⟩
